import Mathlib

/-!
Verification development for the client-side session engine of a
bidirectional, transport-agnostic RPC protocol (Model Context Protocol
style) and its Python binding layer.

The visible source of the repository is the binding/glue layer only
(`rmcp_python/__init__.py`, an SSE example client, tests and packaging);
the protocol engine itself (wire codec, correlation table, dispatcher,
peer handle, initialization handshake) is not part of the visible
excerpt.  Definitions for the engine below are therefore modelled from
the specification, as indicated in their doc comments; definitions for
the Python package surface are taken directly from the source files.
-/

namespace Rmcp

/-! ## JSON-like frame values

The wire envelope shape is JSON-RPC-like; frames are JSON objects.  We
model JSON values with a mutual inductive so that equality is decidable.
-/

mutual

/-- A JSON value, the payload type for `params`, `result` and frames. -/
inductive JsonValue where
  | null
  | bool (b : Bool)
  | num (n : Int)
  | str (s : String)
  | arr (elems : JsonArray)
  | obj (fields : JsonFields)
deriving DecidableEq

/-- A JSON array, as its own inductive to keep equality derivable. -/
inductive JsonArray where
  | nil
  | cons (v : JsonValue) (rest : JsonArray)
deriving DecidableEq

/-- The field list of a JSON object: ordered key/value pairs. -/
inductive JsonFields where
  | nil
  | cons (key : String) (v : JsonValue) (rest : JsonFields)
deriving DecidableEq

end

/-- A request identifier: the wire allows `<string|int>` ids. -/
inductive RequestId where
  | num (n : Int)
  | str (s : String)
deriving DecidableEq

/-- A server-reported application error: `{"code": <int>, "message": <string>}`. -/
structure RpcError where
  code : Int
  message : String
deriving DecidableEq

/-- Modelled from the spec: the Envelope tagged variant
`Request{id, method, params}`, `Response{id, result|error}`,
`Notification{method, params}` (§3 Data Model). -/
inductive Envelope where
  | request (id : RequestId) (method : String) (params : JsonValue)
  | response (id : RequestId) (outcome : Sum JsonValue RpcError)
  | notification (method : String) (params : JsonValue)
deriving DecidableEq

/-! ## Wire codec -/

/-- A decode failure identifying the offending field (§4.2). -/
inductive DecodeError where
  | missingField (name : String)
  | badField (name : String)
deriving DecidableEq

/-- Looks up the first field with the given key in a JSON object. -/
def findField : JsonFields → String → Option JsonValue
  | .nil, _ => none
  | .cons k v rest, name => if k = name then some v else findField rest name

/-- Encodes a request id into its wire form (string or integer). -/
def encodeId : RequestId → JsonValue
  | .num n => .num n
  | .str s => .str s

/-- Decodes a request id; ids are compared by exact value equality with
no implicit coercion, so only string and integer values are accepted. -/
def decodeId : JsonValue → Option RequestId
  | .num n => some (.num n)
  | .str s => some (.str s)
  | _ => none

/-- Decodes the `{"code": ..., "message": ...}` error object of an error
response. -/
def decodeErrorObj : JsonValue → Option RpcError
  | .obj (.cons "code" (.num c) (.cons "message" (.str m) .nil)) => some ⟨c, m⟩
  | _ => none

/-- Modelled from the spec: the pure codec function
`encode(Envelope) -> bytes` (§4.2), with the frame format of §6:
`{"id", "method", "params"}` for requests, `{"id", "result"}` or
`{"id", "error": {"code", "message"}}` for responses, and
`{"method", "params"}` (no id) for notifications. -/
def encode : Envelope → JsonValue
  | .request id m p =>
      .obj (.cons "id" (encodeId id) (.cons "method" (.str m) (.cons "params" p .nil)))
  | .response id (.inl r) =>
      .obj (.cons "id" (encodeId id) (.cons "result" r .nil))
  | .response id (.inr e) =>
      .obj (.cons "id" (encodeId id)
        (.cons "error" (.obj (.cons "code" (.num e.code) (.cons "message" (.str e.message) .nil))) .nil))
  | .notification m p =>
      .obj (.cons "method" (.str m) (.cons "params" p .nil))

/-- Modelled from the spec: the pure codec function
`decode(bytes) -> Result<Envelope, DecodeError>` (§4.2).  Decode rejects
envelopes missing required discriminant fields and surfaces an error
identifying the offending field rather than panicking. -/
def decode (frame : JsonValue) : Except DecodeError Envelope :=
  match frame with
  | .obj fields =>
    match findField fields "method" with
    | some (.str m) =>
      match findField fields "id" with
      | some idv =>
        match decodeId idv with
        | some id =>
          match findField fields "params" with
          | some p => .ok (.request id m p)
          | none => .error (.missingField "params")
        | none => .error (.badField "id")
      | none =>
        match findField fields "params" with
        | some p => .ok (.notification m p)
        | none => .error (.missingField "params")
    | some _ => .error (.badField "method")
    | none =>
      match findField fields "id" with
      | none => .error (.missingField "method")
      | some idv =>
        match decodeId idv with
        | none => .error (.badField "id")
        | some id =>
          match findField fields "result" with
          | some r => .ok (.response id (.inl r))
          | none =>
            match findField fields "error" with
            | some ev =>
              match decodeErrorObj ev with
              | some err => .ok (.response id (.inr err))
              | none => .error (.badField "error")
            | none => .error (.missingField "result")
  | _ => .error (.badField "frame")

/-! ## Session engine model

The session/service core is not part of the visible excerpt, so the
state machine below is modelled from the specification (§3 Session,
§4.3 Correlation Table, §4.4 Dispatcher, §4.5 Peer Handle, §4.6
Initialization Handshake).
-/

/-- Modelled from the spec: handshake states
`Unconnected → AwaitingInit → Ready → Closed` (§4.6). -/
inductive HandshakeState where
  | unconnected
  | awaitingInit
  | ready
  | closed
deriving DecidableEq

/-- How a pending response slot was resolved.  The `response` and
`remoteError` variants record verbatim the wire id of the response
envelope that fulfilled the slot, so correlation correctness is a real
statement about the recorded wire id, not true by construction. -/
inductive Resolution where
  | response (respId : RequestId) (v : JsonValue)
  | remoteError (respId : RequestId) (e : RpcError)
  | closedSession
  | timedOut
deriving DecidableEq

/-- Modelled from the spec: the Session aggregate (§3): handshake state,
the monotone request-id generator (`nextId` and the emission history
`emitted`), the Correlation Table (`pending` ids with outstanding
slots, `resolved` slots with their outcomes), and the outbound wire
traffic `sent` (envelopes handed to the Transport, pre-codec). -/
structure SessionState where
  hs : HandshakeState
  nextId : Nat
  emitted : List Nat
  pending : List Nat
  resolved : List (Nat × Resolution)
  sent : List Envelope
deriving DecidableEq

/-- A locally-detected failure of the peer handle (§7). -/
inductive EngineError where
  | notInitialized
  | connectionClosed
deriving DecidableEq

/-- Outcome of a `send_request` call: the allocated id, or a local
typed failure produced before any network round-trip. -/
inductive SendOutcome where
  | accepted (id : Nat)
  | rejected (e : EngineError)
deriving DecidableEq

/-- Outcome of `fulfill`: the slot was fulfilled, or the id was unknown
(a non-fatal condition, §4.3). -/
inductive FulfillOutcome where
  | fulfilled
  | unknownId
deriving DecidableEq

/-- Maps a wire request id back to a locally-allocated id: the local
generator only ever emits non-negative numeric ids. -/
def clientId : RequestId → Option Nat
  | .num n => if n < 0 then none else some n.toNat
  | .str _ => none

/-- The fresh session (post-handshake `Ready` state, nothing sent and
nothing outstanding). -/
def initSession : SessionState :=
  { hs := .ready, nextId := 0, emitted := [], pending := [], resolved := [], sent := [] }

/-- Modelled from the spec: `send_request(method, params)` (§4.5):
allocates a new id from the monotone generator, registers it in the
Correlation Table and hands the encoded request to the Transport; a
call before `Ready` fails with `NotInitialized` before any network
round-trip (§4.6, §7), and a call on a closed session fails with a
closed-session error. -/
def sendRequest (s : SessionState) (method : String) (params : JsonValue) :
    SendOutcome × SessionState :=
  match s.hs with
  | .ready =>
      (.accepted s.nextId,
        { s with
            nextId := s.nextId + 1,
            emitted := s.emitted ++ [s.nextId],
            pending := s.pending ++ [s.nextId],
            sent := s.sent ++ [.request (.num (Int.ofNat s.nextId)) method params] })
  | .closed => (.rejected .connectionClosed, s)
  | _ => (.rejected .notInitialized, s)

/-- Modelled from the spec: `CorrelationTable.fulfill(id, result)`
(§4.3): resolves the pending slot whose id matches the response's wire
id; an unknown id is treated as non-fatal (the state is untouched and
the session stays open). -/
def fulfill (s : SessionState) (respId : RequestId) (outcome : Sum JsonValue RpcError) :
    FulfillOutcome × SessionState :=
  match clientId respId with
  | none => (.unknownId, s)
  | some n =>
    if n ∈ s.pending then
      (.fulfilled,
        { s with
            pending := s.pending.erase n,
            resolved := s.resolved ++
              [(n, match outcome with
                   | .inl v => Resolution.response respId v
                   | .inr e => Resolution.remoteError respId e)] })
    else (.unknownId, s)

/-- Modelled from the spec: timeout expiry for one outstanding request
(§4.5): the slot is removed from the table to avoid leaks and the
caller receives a timeout error. -/
def timeoutRequest (s : SessionState) (n : Nat) : SessionState :=
  if n ∈ s.pending then
    { s with
        pending := s.pending.erase n,
        resolved := s.resolved ++ [(n, Resolution.timedOut)] }
  else s

/-- Modelled from the spec: session teardown /
`CorrelationTable.cancel_all(reason)` (§3, §4.3): every outstanding
slot resolves with a closed-session error and the table is left empty. -/
def closeSession (s : SessionState) : SessionState :=
  { s with
      hs := .closed,
      pending := [],
      resolved := s.resolved ++ s.pending.map (fun n => (n, Resolution.closedSession)) }

/-- The client-supplied handler set for server-initiated methods
(§4.5): a partial map from method name to handler. -/
def Handlers : Type :=
  String → Option (JsonValue → Sum JsonValue RpcError)

/-- The JSON-RPC `MethodNotFound` error code. -/
def methodNotFoundCode : Int := -32601

/-- The error a peer sends back for a request whose method has no
locally-registered handler (§4.4). -/
def methodNotFound : RpcError :=
  { code := methodNotFoundCode, message := "Method not found" }

/-- One observable event of a session: a caller issuing a request, the
Dispatcher draining one inbound envelope, a timeout firing, or the
Transport closing. -/
inductive Event where
  | sendReq (method : String) (params : JsonValue)
  | inbound (e : Envelope)
  | timeout (n : Nat)
  | closeTransport
deriving DecidableEq

/-- Modelled from the spec: one step of the session engine.  Inbound
envelopes follow the Dispatcher routing (§4.4): responses go to
`fulfill`, requests go to a registered handler (or draw a
`MethodNotFound` error response with the same id), notifications go to
the fire-and-forget sink; Transport closure triggers `cancel_all`. -/
def step (handlers : Handlers) (s : SessionState) : Event → SessionState
  | .sendReq m p => (sendRequest s m p).2
  | .inbound (.response rid outcome) => (fulfill s rid outcome).2
  | .inbound (.request rid m p) =>
      match handlers m with
      | some h => { s with sent := s.sent ++ [.response rid (h p)] }
      | none => { s with sent := s.sent ++ [.response rid (.inr methodNotFound)] }
  | .inbound (.notification _ _) => s
  | .timeout n => timeoutRequest s n
  | .closeTransport => if s.hs = .closed then s else closeSession s

/-- Runs the session engine over a sequence of events. -/
def run (handlers : Handlers) (s : SessionState) : List Event → SessionState
  | [] => s
  | ev :: tr => run handlers (step handlers s ev) tr

/-- Correlation correctness of one resolved slot: a slot resolved with
a response (or remote error) was resolved by a response envelope whose
wire id maps back to exactly that slot's id; the only other resolutions
are the closed-session and timeout errors. -/
def okRes (slot : Nat) : Resolution → Prop
  | .response rid _ => clientId rid = some slot
  | .remoteError rid _ => clientId rid = some slot
  | .closedSession => True
  | .timedOut => True

/-- The session invariant: emitted ids are strictly increasing and
bound by the generator counter, outstanding ids are emitted and
duplicate-free, every resolved slot is correctly correlated, every
emitted id is outstanding or resolved, and a closed session has an
empty Correlation Table. -/
def Inv (s : SessionState) : Prop :=
  s.emitted.Pairwise (· < ·) ∧
  (∀ id ∈ s.emitted, id < s.nextId) ∧
  (∀ id ∈ s.pending, id ∈ s.emitted) ∧
  s.pending.Nodup ∧
  (∀ p ∈ s.resolved, okRes p.1 p.2) ∧
  (∀ id ∈ s.emitted, id ∈ s.pending ∨ id ∈ s.resolved.map Prod.fst) ∧
  (s.hs = .closed → s.pending = [])

/-! ## Tool listing and pagination -/

/-- Modelled from the spec: the Tool descriptor (§3): name, input
schema, description. -/
structure Tool where
  name : String
  inputSchema : JsonValue
  description : Option String
deriving DecidableEq

/-- One page of a `tools/list` result: the tools of the page and the
optional continuation cursor the remote signals. -/
structure ToolsPage where
  tools : List Tool
  nextCursor : Option String
deriving DecidableEq

/-- A well-formed remote page sequence: every page but the last signals
a continuation cursor, and the last page signals none. -/
def paginated : List ToolsPage → Bool
  | [] => true
  | [page] => page.nextCursor.isNone
  | page :: rest => page.nextCursor.isSome && paginated rest

/-- Modelled from the spec: `list_tools()` (§4.5) wraps
`send_request("tools/list", ...)`, transparently paginating if the
remote signals a continuation cursor and accumulating until exhausted.
The remote is modelled by the sequence of pages it returns to the
successive `tools/list` requests. -/
def listAllTools : List ToolsPage → List Tool
  | [] => []
  | page :: rest =>
      page.tools ++ (match page.nextCursor with
        | some _ => listAllTools rest
        | none => [])

/-- The Tool of the spec's scenario: `{"name":"increment","inputSchema":{}}`. -/
def incrementTool : Tool :=
  { name := "increment", inputSchema := .obj .nil, description := none }

/-- The spec scenario's single-page remote answer to `tools/list`. -/
def incrementPages : List ToolsPage :=
  [{ tools := [incrementTool], nextCursor := none }]

/-! ## Python package surface

These definitions are taken directly from the source under
`src/bindings/python`, not modelled from the spec.
-/

/-- The names imported by the `from .rmcp_python import (...)` statement
of `rmcp_python/__init__.py`. -/
def importedNames : List String :=
  ["PyService", "PyCreateMessageParams", "PyCreateMessageResult", "PyRoot",
   "PyListRootsResult", "PyClientInfo", "PyClientCapabilities", "PyImplementation",
   "PyTransport", "PySseTransport"]

/-- The `__all__` list of `rmcp_python/__init__.py`. -/
def dunderAll : List String :=
  ["PyService", "PyCreateMessageParams", "PyCreateMessageResult", "PyRoot",
   "PyListRootsResult", "PyClientInfo", "PyClientCapabilities", "PyImplementation",
   "PyTransport", "PySseTransport"]

/-- The attribute names a `from rmcp_python import X` statement can
resolve on the package: the ten names bound by the import statement in
`__init__.py` plus the `rmcp_python` extension submodule itself, which
the relative import binds as a package attribute. -/
def packageAttrs : List String := importedNames ++ ["rmcp_python"]

/-- Modelled from the spec: the `PyCreateMessageParams` binding class
(its pyo3 implementation is outside the visible excerpt): constructor
fields `content`, `temperature`, `max_tokens` stored verbatim, read
back by attribute getters.  Python floats are modelled as rationals;
only verbatim storage is at stake, no arithmetic. -/
structure PyCreateMessageParams where
  content : String
  temperature : Rat
  max_tokens : Nat
deriving DecidableEq

/-- The `PyCreateMessageParams(content=..., temperature=..., max_tokens=...)`
constructor. -/
def PyCreateMessageParams.new (content : String) (temperature : Rat)
    (max_tokens : Nat) : PyCreateMessageParams :=
  { content := content, temperature := temperature, max_tokens := max_tokens }

/-- Modelled from the spec: the `PyRoot` binding class (its pyo3
implementation is outside the visible excerpt): constructor fields
`id` and `name` stored verbatim. -/
structure PyRoot where
  id : String
  name : String
deriving DecidableEq

/-- The `PyRoot(id=..., name=...)` constructor. -/
def PyRoot.new (id : String) (name : String) : PyRoot :=
  { id := id, name := name }

/-! ## Fixtures used by the witness theorems -/

/-- A client that registered no handlers for server-initiated methods. -/
def noHandlers : Handlers := fun _ => none

/-- A concrete event trace: two concurrent requests, an out-of-order
response for the second, then transport closure. -/
def correlationDemoTrace : List Event :=
  [.sendReq "ping" (.obj .nil),
   .sendReq "tools/list" .null,
   .inbound (.response (.num 1) (.inl .null)),
   .closeTransport]

/-- A concrete event trace issuing two requests. -/
def generatorDemoTrace : List Event :=
  [.sendReq "tools/list" .null, .sendReq "tools/call" (.obj .nil)]

/-- A session still in the handshake (`AwaitingInit`). -/
def preInitSession : SessionState :=
  { initSession with hs := .awaitingInit }

/-- A ready session with two outstanding requests. -/
def outstandingSession : SessionState :=
  { hs := .ready, nextId := 2, emitted := [0, 1], pending := [0, 1],
    resolved := [], sent := [] }

/-- C6: for every Envelope variant `e` (Request, Response, Notification),
decoding the encoding of `e` yields `e` again: `decode (encode e) = e`. -/
theorem decode_encode_roundtrip (e : Envelope) : decode (encode e) = .ok e := by
  cases e with
  | request id m p => cases id <;> rfl
  | response id outcome => cases id <;> cases outcome <;> rfl
  | notification m p => rfl

/-- The fresh session satisfies the session invariant. -/
theorem inv_init : Inv initSession := by
  simp [Inv, initSession]

/-- The session invariant is preserved by every engine step. -/
theorem inv_step (handlers : Handlers) (s : SessionState) (ev : Event)
    (h : Inv s) : Inv (step handlers s ev) := by
  obtain ⟨hpair, hbound, hpe, hnd, hres, hcov, hclosed⟩ := h
  cases ev with
  | sendReq m p =>
    show Inv (sendRequest s m p).2
    by_cases hr : s.hs = .ready
    · simp only [sendRequest, hr, if_pos rfl]
      refine ⟨?_, ?_, ?_, ?_, hres, ?_, ?_⟩
      · refine List.pairwise_append.mpr ⟨hpair, List.pairwise_singleton _ _, ?_⟩
        intro a ha b hb
        rw [List.mem_singleton] at hb
        exact hb ▸ hbound a ha
      · intro id hid
        rcases List.mem_append.mp hid with h1 | h1
        · exact Nat.lt_succ_of_lt (hbound id h1)
        · rw [List.mem_singleton] at h1
          exact h1 ▸ Nat.lt_succ_self _
      · intro id hid
        rcases List.mem_append.mp hid with h1 | h1
        · exact List.mem_append_left _ (hpe id h1)
        · exact List.mem_append_right _ h1
      · rw [List.nodup_append]
        refine ⟨hnd, List.nodup_singleton _, ?_⟩
        intro a ha hb
        rw [List.mem_singleton] at hb
        exact absurd (hbound a (hpe a ha)) (by simp [hb])
      · intro id hid
        rcases List.mem_append.mp hid with h1 | h1
        · rcases hcov id h1 with h2 | h2
          · exact Or.inl (List.mem_append_left _ h2)
          · exact Or.inr h2
        · exact Or.inl (List.mem_append_right _ h1)
      · intro hcl
        exact HandshakeState.noConfusion hcl
    · by_cases hc : s.hs = .closed <;>
        · simp only [sendRequest, hr, hc, if_neg, if_pos rfl, reduceIte]
          exact ⟨hpair, hbound, hpe, hnd, hres, hcov, hclosed⟩
  | inbound e =>
    cases e with
    | response rid outcome =>
      show Inv (fulfill s rid outcome).2
      cases hc : clientId rid with
      | none =>
        simp only [fulfill, hc]
        exact ⟨hpair, hbound, hpe, hnd, hres, hcov, hclosed⟩
      | some n =>
        by_cases hmem : n ∈ s.pending
        · simp only [fulfill, hc, if_pos hmem]
          refine ⟨hpair, hbound, ?_, List.Nodup.erase n hnd, ?_, ?_, ?_⟩
          · intro id hid
            exact hpe id (List.mem_of_mem_erase hid)
          · intro q hq
            rcases List.mem_append.mp hq with h1 | h1
            · exact hres q h1
            · rw [List.mem_singleton] at h1
              subst h1
              cases outcome <;> simpa [okRes] using hc
          · intro id hid
            rcases hcov id hid with h1 | h1
            · by_cases heq : id = n
              · refine Or.inr ?_
                rw [List.map_append, List.mem_append]
                exact Or.inr (by simp [heq])
              · exact Or.inl ((List.mem_erase_of_ne heq).mpr h1)
            · refine Or.inr ?_
              rw [List.map_append, List.mem_append]
              exact Or.inl h1
          · intro hcl
            rw [hclosed hcl] at hmem
            exact absurd hmem (List.not_mem_nil n)
        · simp only [fulfill, hc, if_neg hmem]
          exact ⟨hpair, hbound, hpe, hnd, hres, hcov, hclosed⟩
    | request rid m p =>
      cases hm : handlers m <;>
        · simp only [step, hm]
          exact ⟨hpair, hbound, hpe, hnd, hres, hcov, hclosed⟩
    | notification m p =>
      exact ⟨hpair, hbound, hpe, hnd, hres, hcov, hclosed⟩
  | timeout n =>
    show Inv (timeoutRequest s n)
    by_cases hmem : n ∈ s.pending
    · simp only [timeoutRequest, if_pos hmem]
      refine ⟨hpair, hbound, ?_, List.Nodup.erase n hnd, ?_, ?_, ?_⟩
      · intro id hid
        exact hpe id (List.mem_of_mem_erase hid)
      · intro q hq
        rcases List.mem_append.mp hq with h1 | h1
        · exact hres q h1
        · rw [List.mem_singleton] at h1
          subst h1
          trivial
      · intro id hid
        rcases hcov id hid with h1 | h1
        · by_cases heq : id = n
          · refine Or.inr ?_
            rw [List.map_append, List.mem_append]
            exact Or.inr (by simp [heq])
          · exact Or.inl ((List.mem_erase_of_ne heq).mpr h1)
        · refine Or.inr ?_
          rw [List.map_append, List.mem_append]
          exact Or.inl h1
      · intro hcl
        rw [hclosed hcl] at hmem
        exact absurd hmem (List.not_mem_nil n)
    · simp only [timeoutRequest, if_neg hmem]
      exact ⟨hpair, hbound, hpe, hnd, hres, hcov, hclosed⟩
  | closeTransport =>
    by_cases hc : s.hs = .closed
    · simp only [step, if_pos hc]
      exact ⟨hpair, hbound, hpe, hnd, hres, hcov, hclosed⟩
    · simp only [step, if_neg hc, closeSession]
      refine ⟨hpair, hbound, ?_, List.nodup_nil, ?_, ?_, fun _ => rfl⟩
      · intro id hid
        exact absurd hid (List.not_mem_nil id)
      · intro q hq
        rcases List.mem_append.mp hq with h1 | h1
        · exact hres q h1
        · rcases List.mem_map.mp h1 with ⟨a, _, ha⟩
          subst ha
          trivial
      · intro id hid
        rcases hcov id hid with h1 | h1
        · refine Or.inr ?_
          rw [List.map_append, List.mem_append]
          refine Or.inr (List.mem_map.mpr ⟨(id, Resolution.closedSession), ?_, rfl⟩)
          exact List.mem_map.mpr ⟨id, h1, rfl⟩
        · refine Or.inr ?_
          rw [List.map_append, List.mem_append]
          exact Or.inl h1

/-- The session invariant holds after any run from an invariant state. -/
theorem inv_run (handlers : Handlers) (tr : List Event) (s : SessionState)
    (h : Inv s) : Inv (run handlers s tr) := by
  induction tr generalizing s with
  | nil => exact h
  | cons ev tr ih => exact ih (step handlers s ev) (inv_step handlers s ev h)

/-- A closed session stays closed across any single step. -/
theorem step_hs_closed (handlers : Handlers) (s : SessionState) (ev : Event)
    (h : s.hs = .closed) : (step handlers s ev).hs = .closed := by
  cases ev with
  | sendReq m p => simp [step, sendRequest, h]
  | inbound e =>
    cases e with
    | response rid outcome =>
      cases hc : clientId rid with
      | none => simpa [step, fulfill, hc] using h
      | some n =>
        by_cases hm : n ∈ s.pending <;> simp [step, fulfill, hc, hm, h]
    | request rid m p => cases hm : handlers m <;> simp [step, hm, h]
    | notification m p => simpa [step] using h
  | timeout n =>
    by_cases hm : n ∈ s.pending <;> simp [step, timeoutRequest, hm, h]
  | closeTransport => simp [step, closeSession, h]

/-- Stepping on transport closure always leaves the session closed. -/
theorem step_closeTransport_closed (handlers : Handlers) (s : SessionState) :
    (step handlers s .closeTransport).hs = .closed := by
  by_cases h : s.hs = .closed <;> simp [step, closeSession, h]

/-- A closed session stays closed across any run. -/
theorem run_hs_closed (handlers : Handlers) (tr : List Event) (s : SessionState)
    (h : s.hs = .closed) : (run handlers s tr).hs = .closed := by
  induction tr generalizing s with
  | nil => exact h
  | cons ev tr ih => exact ih (step handlers s ev) (step_hs_closed handlers s ev h)

/-- A trace containing a transport closure ends in a closed session. -/
theorem run_closed_of_mem (handlers : Handlers) (tr : List Event) (s : SessionState)
    (h : Event.closeTransport ∈ tr) : (run handlers s tr).hs = .closed := by
  induction tr generalizing s with
  | nil => exact absurd h (List.not_mem_nil _)
  | cons ev tr ih =>
    rcases List.mem_cons.mp h with h1 | h1
    · subst h1
      exact run_hs_closed handlers tr (step handlers s .closeTransport)
        (step_closeTransport_closed handlers s)
    · exact ih (step handlers s ev) h1

/-- C1: over any interleaving of session events, every issued request
resolves only with a response whose wire id maps back to its own
allocated id, a closed-session error, or a timeout error — never with
a response correlated to a different request's id; at every point each
issued request is still outstanding or already so resolved, and once
the Transport closes every issued request has resolved. -/
theorem send_request_correlation (handlers : Handlers) (tr : List Event) :
    (∀ p ∈ (run handlers initSession tr).resolved, okRes p.1 p.2) ∧
    (∀ id ∈ (run handlers initSession tr).emitted,
       id ∈ (run handlers initSession tr).pending ∨
       id ∈ ((run handlers initSession tr).resolved.map Prod.fst)) ∧
    (Event.closeTransport ∈ tr →
       (run handlers initSession tr).pending = [] ∧
       ∀ id ∈ (run handlers initSession tr).emitted,
         id ∈ ((run handlers initSession tr).resolved.map Prod.fst)) := by
  obtain ⟨hpair, hbound, hpe, hnd, hres, hcov, hclosed⟩ :=
    inv_run handlers tr initSession inv_init
  refine ⟨hres, hcov, fun hmem => ?_⟩
  have hcl := run_closed_of_mem handlers tr initSession hmem
  have hp := hclosed hcl
  refine ⟨hp, fun id hid => ?_⟩
  rcases hcov id hid with h1 | h1
  · rw [hp] at h1
    exact absurd h1 (List.not_mem_nil id)
  · exact h1

/-- Witness for C1: a concrete trace with two concurrent requests, an
out-of-order response fulfilling the second, then transport closure. -/
theorem send_request_correlation_witness :
    okRes 1 (Resolution.response (.num 1) .null) ∧
    (run noHandlers initSession correlationDemoTrace).pending = [] ∧
    0 ∈ ((run noHandlers initSession correlationDemoTrace).resolved.map Prod.fst) :=
  ⟨(send_request_correlation noHandlers correlationDemoTrace).1
      (1, Resolution.response (.num 1) .null) (by decide),
   ((send_request_correlation noHandlers correlationDemoTrace).2.2 (by decide)).1,
   ((send_request_correlation noHandlers correlationDemoTrace).2.2 (by decide)).2
      0 (by decide)⟩

/-- C2: over any interleaving of session events, the ids emitted by the
request-id generator are pairwise strictly increasing in emission order
(so no id is ever emitted twice, outstanding or not), and every
outstanding id in the Correlation Table is strictly below the generator
counter, so the next emitted id never collides with an outstanding id. -/
theorem request_id_generator_monotone (handlers : Handlers) (tr : List Event) :
    (run handlers initSession tr).emitted.Pairwise (· < ·) ∧
    (∀ id ∈ (run handlers initSession tr).pending,
       id < (run handlers initSession tr).nextId) := by
  obtain ⟨hpair, hbound, hpe, _, _, _, _⟩ := inv_run handlers tr initSession inv_init
  exact ⟨hpair, fun id hid => hbound id (hpe id hid)⟩

/-- Witness for C2: a concrete trace issuing two requests. -/
theorem request_id_generator_monotone_witness :
    (run noHandlers initSession generatorDemoTrace).emitted.Pairwise (· < ·) ∧
    1 < (run noHandlers initSession generatorDemoTrace).nextId :=
  ⟨(request_id_generator_monotone noHandlers generatorDemoTrace).1,
   (request_id_generator_monotone noHandlers generatorDemoTrace).2 1 (by decide)⟩

/-- C3: calling an application-level request operation before the
handshake has reached `Ready` fails with `NotInitialized` and leaves
the session untouched — in particular nothing is sent on the Transport
and no slot is registered. -/
theorem send_before_ready_not_initialized (s : SessionState) (m : String)
    (p : JsonValue) (h : s.hs = .unconnected ∨ s.hs = .awaitingInit) :
    (sendRequest s m p).1 = .rejected .notInitialized ∧
    (sendRequest s m p).2 = s := by
  rcases h with h | h <;> simp [sendRequest, h]

/-- Witness for C3: a request issued while the handshake awaits the
initialize response. -/
theorem send_before_ready_not_initialized_witness :
    (sendRequest preInitSession "tools/list" .null).1 = .rejected .notInitialized ∧
    (sendRequest preInitSession "tools/list" .null).2 = preInitSession :=
  send_before_ready_not_initialized preInitSession "tools/list" .null (Or.inr rfl)

/-- C4: closing the Transport while requests are outstanding resolves
every outstanding slot with a closed-session error and leaves the
Correlation Table with no entries (and the session closed). -/
theorem close_resolves_all_pending (s : SessionState) :
    (closeSession s).pending = [] ∧
    (closeSession s).hs = .closed ∧
    ∀ id ∈ s.pending, (id, Resolution.closedSession) ∈ (closeSession s).resolved := by
  refine ⟨rfl, rfl, fun id hid => ?_⟩
  simp only [closeSession]
  exact List.mem_append_right _ (List.mem_map.mpr ⟨id, hid, rfl⟩)

/-- Witness for C4: closing a session with two outstanding requests. -/
theorem close_resolves_all_pending_witness :
    (closeSession outstandingSession).pending = [] ∧
    (closeSession outstandingSession).hs = .closed ∧
    (1, Resolution.closedSession) ∈ (closeSession outstandingSession).resolved :=
  ⟨(close_resolves_all_pending outstandingSession).1,
   (close_resolves_all_pending outstandingSession).2.1,
   (close_resolves_all_pending outstandingSession).2.2 1 (by decide)⟩

/-- C5: an inbound Request whose method has no locally-registered
handler draws back an error Response carrying the same id and the
`MethodNotFound` error, while handshake state, outstanding slots and
resolved slots are untouched — the dispatcher does not crash and the
session remains open. -/
theorem dispatch_unknown_method (handlers : Handlers) (s : SessionState)
    (rid : RequestId) (m : String) (p : JsonValue) (h : handlers m = none) :
    (step handlers s (.inbound (.request rid m p))).sent =
      s.sent ++ [Envelope.response rid (Sum.inr methodNotFound)] ∧
    (step handlers s (.inbound (.request rid m p))).hs = s.hs ∧
    (step handlers s (.inbound (.request rid m p))).pending = s.pending ∧
    (step handlers s (.inbound (.request rid m p))).resolved = s.resolved := by
  simp [step, h]

/-- Witness for C5: a `sampling/createMessage` request arriving before
the client registered any sampling handler. -/
theorem dispatch_unknown_method_witness :
    (step noHandlers initSession
        (.inbound (.request (.num 7) "sampling/createMessage" (.obj .nil)))).sent =
      initSession.sent ++ [Envelope.response (.num 7) (Sum.inr methodNotFound)] ∧
    (step noHandlers initSession
        (.inbound (.request (.num 7) "sampling/createMessage" (.obj .nil)))).hs =
      initSession.hs ∧
    (step noHandlers initSession
        (.inbound (.request (.num 7) "sampling/createMessage" (.obj .nil)))).pending =
      initSession.pending ∧
    (step noHandlers initSession
        (.inbound (.request (.num 7) "sampling/createMessage" (.obj .nil)))).resolved =
      initSession.resolved :=
  dispatch_unknown_method noHandlers initSession (.num 7)
    "sampling/createMessage" (.obj .nil) rfl

/-- Unfolding lemma for `listAllTools` on a head page whose cursor is
not yet inspected. -/
theorem listAllTools_cons (page : ToolsPage) (rest : List ToolsPage) :
    listAllTools (page :: rest) =
      page.tools ++ (if page.nextCursor.isSome then listAllTools rest else []) := by
  cases hc : page.nextCursor <;> simp [listAllTools, hc]

/-- C7: `list_tools` transparently follows continuation cursors and
accumulates pages until exhausted: over any well-formed page sequence
it returns the concatenation of all pages' tools. -/
theorem list_tools_accumulates (pages : List ToolsPage)
    (h : paginated pages = true) :
    listAllTools pages = (pages.map ToolsPage.tools).flatten := by
  induction pages with
  | nil => rfl
  | cons page rest ih =>
    cases rest with
    | nil =>
      have hn : page.nextCursor = none := by
        simpa [paginated, Option.isNone_iff_eq_none] using h
      simp [listAllTools, hn]
    | cons q rs =>
      have hparts : page.nextCursor.isSome = true ∧ paginated (q :: rs) = true := by
        simpa [paginated, Bool.and_eq_true] using h
      rw [listAllTools_cons, hparts.1, if_pos rfl, ih hparts.2]
      simp

/-- Witness for C7: the spec's scenario — a single-page result
`result:{tools:[{"name":"increment","inputSchema":{}}]}` yields the
one-element sequence containing the Tool named "increment". -/
theorem list_tools_accumulates_witness :
    paginated incrementPages = true ∧
    listAllTools incrementPages = [incrementTool] ∧
    incrementTool.name = "increment" :=
  ⟨rfl, (list_tools_accumulates incrementPages rfl).trans rfl, rfl⟩

/-- C8: `fulfill` on an id with no pending entry is non-fatal: it
reports `UnknownId` and returns the session state unchanged, so the
session is not torn down and no unrecoverable failure is raised. -/
theorem fulfill_unknown_id_nonfatal (s : SessionState) (rid : RequestId)
    (outcome : Sum JsonValue RpcError)
    (h : ∀ n, clientId rid = some n → n ∉ s.pending) :
    fulfill s rid outcome = (.unknownId, s) := by
  cases hc : clientId rid with
  | none => simp [fulfill, hc]
  | some n => simp [fulfill, hc, h n hc]

/-- Witness for C8: a late response for id 42 arriving when nothing is
outstanding. -/
theorem fulfill_unknown_id_nonfatal_witness :
    fulfill initSession (.num 42) (.inl .null) = (.unknownId, initSession) :=
  fulfill_unknown_id_nonfatal initSession (.num 42) (.inl .null)
    (fun n _ => List.not_mem_nil n)

/-- C9: the importable surface of the `rmcp_python` package is exactly
eleven names — the ten classes (which are both bound by the import
statement and listed in `__all__`) plus the `rmcp_python` extension
submodule attribute; `PyMessage` is not among them, so
`from rmcp_python import PyMessage` (as the test fixtures do) fails
with an import error. -/
theorem package_surface_exact :
    importedNames = dunderAll ∧
    packageAttrs.length = 11 ∧
    packageAttrs = ["PyService", "PyCreateMessageParams", "PyCreateMessageResult",
      "PyRoot", "PyListRootsResult", "PyClientInfo", "PyClientCapabilities",
      "PyImplementation", "PyTransport", "PySseTransport", "rmcp_python"] ∧
    "PyMessage" ∉ packageAttrs := by
  decide

/-- C10: the binding classes return constructor arguments unchanged
from their attribute getters: `PyCreateMessageParams(content,
temperature, max_tokens)` reads back exactly those arguments, and
`PyRoot(id, name)` reads back `id` and `name` unchanged. -/
theorem binding_attrs_roundtrip (c : String) (t : Rat) (mt : Nat)
    (i : String) (nm : String) :
    (PyCreateMessageParams.new c t mt).content = c ∧
    (PyCreateMessageParams.new c t mt).temperature = t ∧
    (PyCreateMessageParams.new c t mt).max_tokens = mt ∧
    (PyRoot.new i nm).id = i ∧
    (PyRoot.new i nm).name = nm :=
  ⟨rfl, rfl, rfl, rfl, rfl⟩

end Rmcp
